import Mathlib

/-!
Verification of the chat-completion client in `groq/completion.go`
(repository chotu-news/groq-go).

The development shallowly embeds the two non-trivial pieces of the file:

* `extractRetryTime` — the retry-delay parser built on the Go regular
  expression `Please try again in (\d+)([a-zA-Z]+)\.` and `strconv.Atoi`;
* `CreateChatCompletion` — the synchronous request path with its HTTP-429
  retry loop (`makeReq`, the `retry <= maxRetry` loop, `time.Sleep`,
  the final JSON decode).

Go `int` is modelled as a 64-bit two's-complement integer (`Int` together
with an explicit wrap at 2^64); JSON (un)marshalling is modelled
abstractly by per-body decodability fields, and the HTTP transport by a
list of per-attempt outcomes consumed in order.
-/

/-- ASCII digit test, the `\d` class of the Go regexp (RE2 `\d` = `[0-9]`). -/
def isDigitChar (c : Char) : Bool := '0' ≤ c && c ≤ '9'

/-- ASCII letter test, the `[a-zA-Z]` class of the Go regexp. -/
def isAsciiAlpha (c : Char) : Bool :=
  ('a' ≤ c && c ≤ 'z') || ('A' ≤ c && c ≤ 'Z')

/-- Numeric value of a decimal digit string (most significant digit first). -/
def digitsVal (ds : List Char) : Nat :=
  ds.foldl (fun a c => a * 10 + (c.toNat - '0'.toNat)) 0

/-- Largest Go `int64`, 2^63 - 1. -/
def int64Max : Int := 9223372036854775807

/-- Smallest Go `int64`, -2^63. -/
def int64Min : Int := -9223372036854775808

/-- Two's-complement wrap of an integer into the `int64` range
`[-2^63, 2^63)`; Go's `int` arithmetic overflows with exactly this wrap. -/
def wrap64 (x : Int) : Int :=
  (x + 9223372036854775808) % 18446744073709551616 - 9223372036854775808

/-- Go 64-bit `int` multiplication (wrapping). -/
def goMul (a b : Int) : Int := wrap64 (a * b)

/-- Model of Go `strconv.Atoi` (= `ParseInt(s, 10, 64)` on a 64-bit
platform).  Returns the pair (value, errored).  On a syntax error the value
is 0; on range overflow the value is clamped to `int64Max` / `int64Min`
with the error flag set — the Go caller receives both the clamped value and
a non-nil error. -/
def goAtoi (s : List Char) : Int × Bool :=
  let core : Bool → List Char → Int × Bool := fun neg digits =>
    if digits.isEmpty || digits.all isDigitChar = false then (0, true)
    else
      let v : Int := (digitsVal digits : Int)
      if neg then
        (if v ≤ 9223372036854775808 then (-v, false) else (int64Min, true))
      else
        (if v ≤ int64Max then (v, false) else (int64Max, true))
  match s with
  | [] => (0, true)
  | c :: rest =>
      if c = '-' then core true rest
      else if c = '+' then core false rest
      else core false (c :: rest)

/-- The literal part of the retry regexp: `Please try again in `. -/
def tryAgainLit : List Char := "Please try again in ".data

/-- Match a literal at the head of the input; on success return the
remainder.  Models the literal prefix of the regular expression. -/
def stripLit : List Char → List Char → Option (List Char)
  | [], rest => some rest
  | _ :: _, [] => none
  | c :: cs, d :: ds => if c = d then stripLit cs ds else none

/-- One anchored attempt of the Go regexp
`Please try again in (\d+)([a-zA-Z]+)\.` at the current position.
Backtracking over `(\d+)` and `([a-zA-Z]+)` collapses to maximal runs
(a digit given back cannot be matched by `[a-zA-Z]+`, a letter given back
cannot be matched by `\.`), so the anchored match is: the literal, a
maximal non-empty digit run, a maximal non-empty letter run, then `.`.
On success returns the two capture groups. -/
def matchAt (l : List Char) : Option (List Char × List Char) :=
  match stripLit tryAgainLit l with
  | none => none
  | some r1 =>
      let ds := r1.takeWhile isDigitChar
      let r2 := r1.dropWhile isDigitChar
      if ds.isEmpty then none
      else
        let us := r2.takeWhile isAsciiAlpha
        let r3 := r2.dropWhile isAsciiAlpha
        if us.isEmpty then none
        else
          match r3 with
          | '.' :: _ => some (ds, us)
          | _ => none

/-- Leftmost match of the regexp over the whole message, as computed by
Go's `FindStringSubmatch`: try each start position from the left, return
the first anchored match.  (The pattern only involves ASCII classes and
literals, so scanning characters instead of UTF-8 bytes is equivalent.) -/
def findMatch : List Char → Option (List Char × List Char)
  | [] => none
  | c :: rest =>
      match matchAt (c :: rest) with
      | some r => some r
      | none => findMatch rest

/-- Errors of `extractRetryTime`: `patternNotFound` is the
`"retry time not found"` error, `atoiErr` is the error propagated from
`strconv.Atoi` (a range error, since the capture group is all digits),
and `unknownUnit` is the `"unknown time unit: %s"` error. -/
inductive RetryErr
  | patternNotFound
  | atoiErr
  | unknownUnit (u : List Char)
deriving DecidableEq

/-- Model of `extractRetryTime` (completion.go lines 195-223): regexp
search, `strconv.Atoi` on the first capture group, then the unit switch
with Go `int` (wrapping) multiplications. -/
def extractRetryTime (message : List Char) : Except RetryErr Int :=
  match findMatch message with
  | none => .error .patternNotFound
  | some (ds, u) =>
      match goAtoi ds with
      | (_, true) => .error .atoiErr
      | (v, false) =>
          if u = "ms".data then .ok v
          else if u = "s".data then .ok (goMul v 1000)
          else if u = "m".data then .ok (goMul (goMul v 60) 1000)
          else if u = "h".data then .ok (goMul (goMul (goMul v 60) 60) 1000)
          else .error (.unknownUnit u)

/-- Model of the exported wrapper `ExtractRetryTime` (line 192). -/
def ExtractRetryTime (s : List Char) : Except RetryErr Int :=
  extractRetryTime s

/-- Milliseconds-per-unit factor used to state the parser's contract. -/
def unitMs (u : List Char) : Int :=
  if u = "ms".data then 1
  else if u = "s".data then 1000
  else if u = "m".data then 60000
  else if u = "h".data then 3600000
  else 0

/-- Does a unit token contain an ASCII uppercase letter? -/
def hasUpper (u : List Char) : Bool := u.any (fun c => 'A' ≤ c && c ≤ 'Z')

deriving instance DecidableEq for Except

/-! ## The request path and the HTTP-429 retry loop -/

/-- Decode behaviour of one HTTP response body.  JSON unmarshalling is
modelled abstractly: `errDecodeOk` says whether `json.Unmarshal` into
`ErrorResponse` succeeds (line 157), and `chatDecode` is the result of
`json.Unmarshal` into `ChatCompletionResponse` (line 186), with the
decoded payload abstracted to a `Nat` identifier. -/
structure Body where
  errDecodeOk : Bool
  chatDecode : Option Nat
deriving DecidableEq

/-- Outcome of one transport attempt (`c.client.Do` + `io.ReadAll`):
either a failure (`err` — `Do` error or body-read error, in which case
`makeReq` returns a nil response), or a response with an HTTP status
code, the value of the `retry-after` header (`""` when absent), and a
body. -/
inductive TransportResult
  | err : TransportResult
  | ok : Nat → List Char → Body → TransportResult
deriving DecidableEq

/-- The error returned by `makeReq` (lines 110-141): the streaming-flag
rejection, a `json.Marshal` failure, or a transport/read failure. -/
inductive MakeReqErr
  | invalidMode
  | marshalErr
  | transportErr
deriving DecidableEq

/-- Model of `makeReq` (lines 110-141).  `stream` is `req.Stream`;
`marshalFails` abstracts whether `json.Marshal(req)` fails (possible via
the `interface\x7b\x7d`-typed fields); `env` is the list of remaining
transport outcomes.  Returns (result, number of transport calls made,
remaining transport outcomes); on error the Go function returns a nil
`*http.Response` (hence `Except.error`).  An exhausted `env` is modelled
as a transport failure. -/
def makeReq (stream marshalFails : Bool) (env : List TransportResult) :
    Except MakeReqErr (Nat × List Char × Body) × Nat × List TransportResult :=
  if stream then (.error .invalidMode, 0, env)
  else if marshalFails then (.error .marshalErr, 0, env)
  else
    match env with
    | [] => (.error .transportErr, 1, env)
    | .err :: rest => (.error .transportErr, 1, rest)
    | .ok s h b :: rest => (.ok (s, h, b), 1, rest)

/-- The distinct `error` returns of `CreateChatCompletion`:
`budgetExhausted` is line 154 (`"retry is %d max retry :%d, ..."`),
`errBodyUnmarshal` is line 159 (`"... Failed to unmarshall the error
body ..."`), `parseRetryFailed` is line 178 (`"... Failed to parse retry
time"`), and `respUnmarshal` is line 187 (`"failed to unmarshal
response"`).  Each constructor carries the data interpolated into the
message. -/
inductive GoError
  | budgetExhausted (retry maxRetry status : Nat) (body : Body)
  | errBodyUnmarshal (status : Nat) (body : Body)
  | parseRetryFailed (status : Nat) (body : Body)
  | respUnmarshal (body : Body)
deriving DecidableEq

/-- What one call of `CreateChatCompletion` does to its caller: a decoded
payload, an `error` return, or a runtime panic (nil-pointer dereference
of the `*http.Response`). -/
inductive Outcome
  | ok (payload : Nat)
  | error (e : GoError)
  | panic
deriving DecidableEq

/-- Observable result of one run: the outcome, the number of transport
invocations, and the arguments (in milliseconds) passed to `time.Sleep`,
in order. -/
structure RunResult where
  outcome : Outcome
  calls : Nat
  sleeps : List Int
deriving DecidableEq

/-- The fall-through decode of lines 185-190: `json.Unmarshal` of the
current body into `ChatCompletionResponse`. -/
def finishDecode (b : Body) : Outcome :=
  match b.chatDecode with
  | none => .error (.respUnmarshal b)
  | some p => .ok p

/-- The sleep duration computed on one 429 iteration with waiting enabled
(lines 161-168): `retryMs := Atoi(header) * 1000` (Go `int` wrap;
`Atoi`'s value is used even when it errors), then clamped by
`if max_wait_on_ratelimit_in_ms < retryMs` to the configured maximum. -/
def clampMs (maxMs : Int) (header : List Char) : Int :=
  let retryMs := goMul (goAtoi header).1 1000
  if maxMs < retryMs then maxMs else retryMs

/-- The retry loop of lines 151-181, one constructor of `fuel` per
iteration (`fuel = 7` at entry is enough: `retry` strictly increases and
the loop returns once `retry + 1 > 5`, so at most 6 iterations run; the
fuel-out branch is unreachable from the entry point).

Transcription of one iteration: guard `status == 429 && retry <= 5`;
`retry++`; return the budget error if `retry > 5`; return the
line-159 error if the error body does not unmarshal; `Atoi` the
`retry-after` header.  With waiting enabled: clamp, sleep, re-issue via
`makeReq` — the inner `err` is then `makeReq`'s error, and on a failed
`makeReq` the error return at line 178 formats `resp.StatusCode` with
`resp = nil`, a panic.  With waiting disabled the inner `err` is still
`Atoi`'s error, so an unparsable header returns the line-178 error and a
parsable one loops again on the unchanged response.  When the guard
fails, control falls through to the final decode of the current body. -/
def ccLoop (wait : Bool) (maxMs : Int) (stream marshalFails : Bool) :
    Nat → Nat → Nat → List Char → Body → List TransportResult → RunResult
  | 0, _, _, _, _, _ => ⟨.panic, 0, []⟩
  | fuel + 1, retry, status, header, body, env =>
    if status = 429 ∧ retry ≤ 5 then
      if retry + 1 > 5 then
        ⟨.error (.budgetExhausted (retry + 1) 5 status body), 0, []⟩
      else if body.errDecodeOk then
        if wait then
          let d := clampMs maxMs header
          match makeReq stream marshalFails env with
          | (.error _, k, _) => ⟨.panic, k, [d]⟩
          | (.ok (s2, h2, b2), k, env2) =>
              let r := ccLoop wait maxMs stream marshalFails fuel (retry + 1) s2 h2 b2 env2
              ⟨r.outcome, k + r.calls, d :: r.sleeps⟩
        else
          if (goAtoi header).2 then ⟨.error (.parseRetryFailed status body), 0, []⟩
          else ccLoop wait maxMs stream marshalFails fuel (retry + 1) status header body env
      else ⟨.error (.errBodyUnmarshal status body), 0, []⟩
    else ⟨finishDecode body, 0, []⟩

/-- The request, reduced to the two fields that decide the control flow
of `CreateChatCompletion`: the `Stream` flag and whether `json.Marshal`
of the request fails.  The remaining fields (messages, model, sampling
parameters, ...) are payload only. -/
structure ChatCompletionRequest where
  stream : Bool
  marshalFails : Bool
deriving DecidableEq

/-- Model of `CreateChatCompletion` (lines 145-191).  `wait` and `maxMs`
are the client fields `wait_on_ratelimit` and
`max_wait_on_ratelimit_in_ms`.  The `err` returned by the initial
`makeReq` is never checked before `resp.StatusCode` is read (line 148),
so a failed `makeReq` — nil response — is a nil-pointer panic. -/
def CreateChatCompletion (req : ChatCompletionRequest) (wait : Bool) (maxMs : Int)
    (env : List TransportResult) : RunResult :=
  match makeReq req.stream req.marshalFails env with
  | (.error _, k, _) => ⟨.panic, k, []⟩
  | (.ok (s, h, b), k, env2) =>
      if s ≠ 200 then
        let r := ccLoop wait maxMs req.stream req.marshalFails 7 0 s h b env2
        ⟨r.outcome, k + r.calls, r.sleeps⟩
      else ⟨finishDecode b, k, []⟩

example :
    CreateChatCompletion ⟨false, false⟩ true 5000
      [.ok 429 "1".data ⟨true, none⟩, .ok 200 [] ⟨true, some 7⟩]
      = ⟨.ok 7, 2, [1000]⟩ := by decide


example :
    CreateChatCompletion ⟨true, false⟩ true 5000 [.ok 200 [] ⟨true, some 7⟩]
      = ⟨.panic, 0, []⟩ := by decide


example : extractRetryTime "Please try again in 7ms.".data = .ok 7 := by decide
example : extractRetryTime "Please try again in 2s.".data = .ok 2000 := by decide
example : extractRetryTime "Please try again in 3m.".data = .ok 180000 := by decide
example : extractRetryTime "Please try again in 1h.".data = .ok 3600000 := by decide
example : extractRetryTime "nothing here".data = .error .patternNotFound := by decide

/-! ## Helper lemmas -/

lemma all_takeWhile (p : Char → Bool) (l : List Char) :
    (l.takeWhile p).all p = true := by
  induction l with
  | nil => rfl
  | cons c cs ih =>
      by_cases h : p c
      · simp [List.takeWhile, h, ih]
      · simp [List.takeWhile, h]

lemma matchAt_shape {l ds u : List Char} (h : matchAt l = some (ds, u)) :
    ds ≠ [] ∧ ds.all isDigitChar = true ∧ u ≠ [] := by
  unfold matchAt at h
  cases hs : stripLit tryAgainLit l with
  | none => rw [hs] at h; exact absurd h (by simp)
  | some r1 =>
      rw [hs] at h
      simp only at h
      by_cases hd : (r1.takeWhile isDigitChar).isEmpty
      · rw [if_pos hd] at h; exact absurd h (by simp)
      · rw [if_neg hd] at h
        by_cases hu : ((r1.dropWhile isDigitChar).takeWhile isAsciiAlpha).isEmpty
        · rw [if_pos hu] at h; exact absurd h (by simp)
        · rw [if_neg hu] at h
          split at h
          · rw [Option.some.injEq, Prod.mk.injEq] at h
            obtain ⟨hds, hus⟩ := h
            subst hds; subst hus
            simp only [List.isEmpty_iff] at hd hu
            exact ⟨hd, all_takeWhile _ _, hu⟩
          · exact absurd h (by simp)

lemma findMatch_shape {msg ds u : List Char} (h : findMatch msg = some (ds, u)) :
    ds ≠ [] ∧ ds.all isDigitChar = true ∧ u ≠ [] := by
  induction msg with
  | nil => exact absurd h (by simp [findMatch])
  | cons c rest ih =>
      rw [findMatch] at h
      cases hm : matchAt (c :: rest) with
      | some r => rw [hm] at h; injection h with h2; subst h2; exact matchAt_shape hm
      | none => rw [hm] at h; exact ih h

lemma digitsVal_int_nonneg (ds : List Char) : (0 : Int) ≤ (digitsVal ds : Int) :=
  Int.ofNat_nonneg _

lemma goAtoi_digits_ok {ds : List Char} (h1 : ds ≠ []) (h2 : ds.all isDigitChar = true)
    (h3 : (digitsVal ds : Int) ≤ int64Max) :
    goAtoi ds = ((digitsVal ds : Int), false) := by
  cases ds with
  | nil => exact absurd rfl h1
  | cons c rest =>
      have hc : isDigitChar c = true := by
        have := List.all_eq_true.mp h2 c (List.mem_cons_self c rest)
        exact this
      have hcm : c ≠ '-' := by
        intro he; subst he; exact absurd hc (by decide)
      have hcp : c ≠ '+' := by
        intro he; subst he; exact absurd hc (by decide)
      unfold goAtoi
      simp only [if_neg hcm, if_neg hcp]
      rw [if_neg (by simp [h2])]
      simp [h3]

lemma goAtoi_digits_range {ds : List Char} (h1 : ds ≠ []) (h2 : ds.all isDigitChar = true)
    (h3 : int64Max < (digitsVal ds : Int)) :
    goAtoi ds = (int64Max, true) := by
  cases ds with
  | nil => exact absurd rfl h1
  | cons c rest =>
      have hc : isDigitChar c = true :=
        List.all_eq_true.mp h2 c (List.mem_cons_self c rest)
      have hcm : c ≠ '-' := by
        intro he; subst he; exact absurd hc (by decide)
      have hcp : c ≠ '+' := by
        intro he; subst he; exact absurd hc (by decide)
      unfold goAtoi
      simp only [if_neg hcm, if_neg hcp]
      rw [if_neg (by simp [h2])]
      have h4 : ¬ (digitsVal (c :: rest) : Int) ≤ int64Max := not_le.mpr h3
      simp [h4]

lemma wrap64_eq_self {x : Int} (h0 : 0 ≤ x) (h1 : x < 9223372036854775808) :
    wrap64 x = x := by
  unfold wrap64
  have : (x + 9223372036854775808) % 18446744073709551616 = x + 9223372036854775808 :=
    Int.emod_eq_of_lt (by omega) (by omega)
  omega

lemma ccLoop_budget (wait : Bool) (maxMs : Int) (sm mf : Bool) (f : Nat)
    (h : List Char) (b : Body) (env : List TransportResult) :
    ccLoop wait maxMs sm mf (f + 1) 5 429 h b env =
      ⟨.error (.budgetExhausted 6 5 429 b), 0, []⟩ := by
  simp [ccLoop]

lemma ccLoop_wait_step (maxMs : Int) (f retry : Nat) (h : List Char) (b : Body)
    (s2 : Nat) (h2 : List Char) (b2 : Body) (rest : List TransportResult)
    (hr : retry + 1 ≤ 5) (hb : b.errDecodeOk = true) :
    ccLoop true maxMs false false (f + 1) retry 429 h b (.ok s2 h2 b2 :: rest) =
      ⟨(ccLoop true maxMs false false f (retry + 1) s2 h2 b2 rest).outcome,
       1 + (ccLoop true maxMs false false f (retry + 1) s2 h2 b2 rest).calls,
       clampMs maxMs h :: (ccLoop true maxMs false false f (retry + 1) s2 h2 b2 rest).sleeps⟩ := by
  have hr5 : retry ≤ 5 := by omega
  have hr6 : ¬(retry + 1 > 5) := by omega
  simp [ccLoop, makeReq, hb, hr5, hr6]

lemma ccLoop_nowait_step (maxMs : Int) (f retry : Nat) (h : List Char) (b : Body)
    (env : List TransportResult) (hr : retry + 1 ≤ 5) (hb : b.errDecodeOk = true)
    (ha : (goAtoi h).2 = false) :
    ccLoop false maxMs false false (f + 1) retry 429 h b env =
      ccLoop false maxMs false false f (retry + 1) 429 h b env := by
  have hr5 : retry ≤ 5 := by omega
  have hr6 : ¬(retry + 1 > 5) := by omega
  simp [ccLoop, hb, hr5, hr6, ha]

lemma ccLoop_badbody (wait : Bool) (maxMs : Int) (sm mf : Bool) (f retry : Nat)
    (h : List Char) (b : Body) (env : List TransportResult)
    (hr : retry + 1 ≤ 5) (hb : b.errDecodeOk = false) :
    ccLoop wait maxMs sm mf (f + 1) retry 429 h b env =
      ⟨.error (.errBodyUnmarshal 429 b), 0, []⟩ := by
  have hr5 : retry ≤ 5 := by omega
  have hr6 : ¬(retry + 1 > 5) := by omega
  simp [ccLoop, hb, hr5, hr6]

lemma ccLoop_first_sleep (maxMs : Int) (f retry : Nat) (h : List Char) (b : Body)
    (env : List TransportResult) (hr : retry + 1 ≤ 5) (hb : b.errDecodeOk = true) :
    (ccLoop true maxMs false false (f + 1) retry 429 h b env).sleeps.head? =
      some (clampMs maxMs h) := by
  have hr5 : retry ≤ 5 := by omega
  have hr6 : ¬(retry + 1 > 5) := by omega
  cases env with
  | nil => simp [ccLoop, hb, hr5, hr6, makeReq]
  | cons e rest =>
      cases e with
      | err => simp [ccLoop, hb, hr5, hr6, makeReq]
      | ok s2 h2 b2 => simp [ccLoop, hb, hr5, hr6, makeReq]

lemma clampMs_eq_min (maxMs : Int) (h : List Char) :
    clampMs maxMs h = min (goMul (goAtoi h).1 1000) maxMs := by
  unfold clampMs
  rcases le_or_lt (goMul (goAtoi h).1 1000) maxMs with hle | hlt
  · rw [if_neg (not_lt.mpr hle), min_eq_left hle]
  · rw [if_pos hlt, min_eq_right (le_of_lt hlt)]

/-! ## Claim theorems: the retry-delay parser -/

set_option maxRecDepth 4096 in
/-- C3 counterexample: the message below contains the well-formed
substring `Please try again in 1s.` (N = 1, unit `s`), but
`extractRetryTime` uses the leftmost regexp match, which is
`Please try again in 1q.`, so it fails with the unknown-unit error
instead of returning 1000. -/
theorem extractRetryTime_leftmost_cex :
    ("Please try again in 1q. Please try again in 1s.".data =
        "Please try again in 1q. ".data ++ "Please try again in 1s.".data) ∧
    extractRetryTime "Please try again in 1q. Please try again in 1s.".data =
      .error (.unknownUnit ['q']) := by
  exact ⟨by decide, by decide⟩

/-- C3 (amended): for every message whose LEFTMOST regexp match has
digits `ds` and a unit token in {ms, s, m, h}, and whose value `N` is
small enough that `N * 3600000` does not overflow `int64`,
`extractRetryTime` returns `N`, `N*1000`, `N*60000`, `N*3600000`
milliseconds respectively, with no error. -/
theorem extractRetryTime_recognized_units (msg ds u : List Char)
    (hm : findMatch msg = some (ds, u))
    (hu : u = "ms".data ∨ u = "s".data ∨ u = "m".data ∨ u = "h".data)
    (hn : (digitsVal ds : Int) * 3600000 < 9223372036854775808) :
    extractRetryTime msg = .ok ((digitsVal ds : Int) * unitMs u) := by
  obtain ⟨hne, hdig, -⟩ := findMatch_shape hm
  have h0 : (0 : Int) ≤ (digitsVal ds : Int) := digitsVal_int_nonneg ds
  have hv : (digitsVal ds : Int) ≤ int64Max := by unfold int64Max; omega
  simp only [extractRetryTime, hm, goAtoi_digits_ok hne hdig hv]
  rcases hu with h | h | h | h <;> subst h
  · rw [if_pos rfl]
    have hums : unitMs "ms".data = 1 := by decide
    rw [hums, mul_one]
  · rw [if_neg (by decide), if_pos rfl]
    have w1 : wrap64 ((digitsVal ds : Int) * 1000) = (digitsVal ds : Int) * 1000 :=
      wrap64_eq_self (by positivity) (by omega)
    have hus : unitMs "s".data = 1000 := by decide
    rw [hus]; unfold goMul; rw [w1]
  · rw [if_neg (by decide), if_neg (by decide), if_pos rfl]
    have w60 : wrap64 ((digitsVal ds : Int) * 60) = (digitsVal ds : Int) * 60 :=
      wrap64_eq_self (by positivity) (by omega)
    have w60k : wrap64 ((digitsVal ds : Int) * 60 * 1000) =
        (digitsVal ds : Int) * 60 * 1000 := by
      have hb : (0 : Int) ≤ (digitsVal ds : Int) * 60000 := mul_nonneg h0 (by norm_num)
      have hc : (digitsVal ds : Int) * 60000 < 9223372036854775808 := by omega
      have he : (digitsVal ds : Int) * 60 * 1000 = (digitsVal ds : Int) * 60000 := by ring
      rw [he]; exact wrap64_eq_self hb hc
    have hum : unitMs "m".data = 60000 := by decide
    rw [hum]; unfold goMul; rw [w60, w60k]
    exact congrArg Except.ok (by ring)
  · rw [if_neg (by decide), if_neg (by decide), if_neg (by decide), if_pos rfl]
    have w60 : wrap64 ((digitsVal ds : Int) * 60) = (digitsVal ds : Int) * 60 :=
      wrap64_eq_self (by positivity) (by omega)
    have w3600 : wrap64 ((digitsVal ds : Int) * 60 * 60) =
        (digitsVal ds : Int) * 60 * 60 := by
      have hb : (0 : Int) ≤ (digitsVal ds : Int) * 3600 := mul_nonneg h0 (by norm_num)
      have hc : (digitsVal ds : Int) * 3600 < 9223372036854775808 := by omega
      have he : (digitsVal ds : Int) * 60 * 60 = (digitsVal ds : Int) * 3600 := by ring
      rw [he]; exact wrap64_eq_self hb hc
    have w36M : wrap64 ((digitsVal ds : Int) * 60 * 60 * 1000) =
        (digitsVal ds : Int) * 60 * 60 * 1000 := by
      have hb : (0 : Int) ≤ (digitsVal ds : Int) * 3600000 := mul_nonneg h0 (by norm_num)
      have he : (digitsVal ds : Int) * 60 * 60 * 1000 = (digitsVal ds : Int) * 3600000 := by
        ring
      rw [he]; exact wrap64_eq_self hb hn
    have huh : unitMs "h".data = 3600000 := by decide
    rw [huh]; unfold goMul; rw [w60, w3600, w36M]
    exact congrArg Except.ok (by ring)

set_option maxRecDepth 4096 in
/-- C3 witness: `Please try again in 2s.` parses to 2000 ms via the
amended theorem. -/
theorem extractRetryTime_recognized_units_witness :
    extractRetryTime "Please try again in 2s.".data = .ok 2000 := by
  have h := extractRetryTime_recognized_units "Please try again in 2s.".data
      ['2'] ['s'] (by decide) (by decide) (by decide)
  rw [h]; decide

set_option maxRecDepth 4096 in
/-- C4 counterexample: the message matches the pattern with the
recognized unit `s`, yet `extractRetryTime` returns an error — the
`strconv.Atoi` range error on `99999999999999999999` (> 2^63 - 1) — so
the parser errors in a third case beyond pattern-not-found and
unknown-unit. -/
theorem extractRetryTime_range_error_cex :
    extractRetryTime "Please try again in 99999999999999999999s.".data =
      .error .atoiErr := by decide

/-- C4 (amended): complete characterization of the parser's error
behaviour.  No regexp match gives the pattern-not-found error; a match
whose numeric value exceeds `int64Max` gives the `Atoi` range error
(checked before the unit switch); otherwise an unrecognized unit gives
the unknown-unit error and a recognized unit succeeds.  These are
exactly the three error cases. -/
theorem extractRetryTime_error_characterization (msg : List Char) :
    match findMatch msg with
    | none => extractRetryTime msg = .error .patternNotFound
    | some (ds, u) =>
        if (digitsVal ds : Int) ≤ int64Max then
          if u = "ms".data ∨ u = "s".data ∨ u = "m".data ∨ u = "h".data then
            ∃ n, extractRetryTime msg = .ok n
          else extractRetryTime msg = .error (.unknownUnit u)
        else extractRetryTime msg = .error .atoiErr := by
  cases hm : findMatch msg with
  | none => simp [extractRetryTime, hm]
  | some r =>
      obtain ⟨ds, u⟩ := r
      obtain ⟨hne, hdig, -⟩ := findMatch_shape hm
      show if (digitsVal ds : Int) ≤ int64Max then
          (if u = "ms".data ∨ u = "s".data ∨ u = "m".data ∨ u = "h".data then
            ∃ n, extractRetryTime msg = .ok n
          else extractRetryTime msg = .error (.unknownUnit u))
        else extractRetryTime msg = .error .atoiErr
      by_cases hr : (digitsVal ds : Int) ≤ int64Max
      · rw [if_pos hr]
        by_cases hu : u = "ms".data ∨ u = "s".data ∨ u = "m".data ∨ u = "h".data
        · rw [if_pos hu]
          simp only [extractRetryTime, hm, goAtoi_digits_ok hne hdig hr]
          rcases hu with h | h | h | h <;> subst h
          · exact ⟨_, by rw [if_pos rfl]⟩
          · exact ⟨_, by rw [if_neg (by decide), if_pos rfl]⟩
          · exact ⟨_, by rw [if_neg (by decide), if_neg (by decide), if_pos rfl]⟩
          · exact ⟨_, by
              rw [if_neg (by decide), if_neg (by decide), if_neg (by decide), if_pos rfl]⟩
        · rw [if_neg hu]
          push_neg at hu
          obtain ⟨h1, h2, h3, h4⟩ := hu
          simp only [extractRetryTime, hm, goAtoi_digits_ok hne hdig hr]
          rw [if_neg h1, if_neg h2, if_neg h3, if_neg h4]
      · rw [if_neg hr]
        simp only [extractRetryTime, hm, goAtoi_digits_range hne hdig (not_le.mp hr)]

set_option maxRecDepth 4096 in
/-- C10 counterexample: this message matches the pattern and its unit
token `S` contains an uppercase letter, yet `extractRetryTime` fails
with the `Atoi` range error (the number exceeds `int64`), not with the
unknown-unit error. -/
theorem extractRetryTime_uppercase_range_cex :
    extractRetryTime "Please try again in 99999999999999999999S.".data =
      .error .atoiErr := by decide

/-- C10 (amended): if the leftmost match's unit token contains an
uppercase ASCII letter and the numeric value fits in `int64`, the parser
fails with the unknown-unit error — unit recognition is case-sensitive
although the regexp accepts uppercase letters in the unit position. -/
theorem extractRetryTime_uppercase_unknownUnit (msg ds u : List Char)
    (hm : findMatch msg = some (ds, u)) (hup : hasUpper u = true)
    (hr : (digitsVal ds : Int) ≤ int64Max) :
    extractRetryTime msg = .error (.unknownUnit u) := by
  obtain ⟨hne, hdig, -⟩ := findMatch_shape hm
  have h1 : u ≠ "ms".data := by intro he; subst he; exact absurd hup (by decide)
  have h2 : u ≠ "s".data := by intro he; subst he; exact absurd hup (by decide)
  have h3 : u ≠ "m".data := by intro he; subst he; exact absurd hup (by decide)
  have h4 : u ≠ "h".data := by intro he; subst he; exact absurd hup (by decide)
  simp only [extractRetryTime, hm, goAtoi_digits_ok hne hdig hr]
  rw [if_neg h1, if_neg h2, if_neg h3, if_neg h4]

set_option maxRecDepth 4096 in
/-- C10 witness: `Please try again in 5S.` fails with the unknown-unit
error on the uppercase token `S`. -/
theorem extractRetryTime_uppercase_unknownUnit_witness :
    extractRetryTime "Please try again in 5S.".data = .error (.unknownUnit ['S']) :=
  extractRetryTime_uppercase_unknownUnit _ ['5'] ['S'] (by decide) (by decide) (by decide)

/-! ## Claim theorems: the request path and retry controller -/

lemma ccLoop_non429 (wait : Bool) (maxMs : Int) (sm mf : Bool) (f retry : Nat)
    (s : Nat) (h : List Char) (b : Body) (env : List TransportResult) (hs : s ≠ 429) :
    ccLoop wait maxMs sm mf (f + 1) retry s h b env = ⟨finishDecode b, 0, []⟩ := by
  simp [ccLoop, hs]

lemma CreateChatCompletion_cons_ok (wait : Bool) (maxMs : Int) (s : Nat) (h : List Char)
    (b : Body) (rest : List TransportResult) (hs : s ≠ 200) :
    CreateChatCompletion ⟨false, false⟩ wait maxMs (.ok s h b :: rest) =
      ⟨(ccLoop wait maxMs false false 7 0 s h b rest).outcome,
       1 + (ccLoop wait maxMs false false 7 0 s h b rest).calls,
       (ccLoop wait maxMs false false 7 0 s h b rest).sleeps⟩ := by
  simp [CreateChatCompletion, makeReq, hs]

/-- C1: a request with the `Stream` flag set is rejected by `makeReq`
with the invalid-mode error before any transport call (0 transport
invocations) — but `CreateChatCompletion` never checks that error and
dereferences the nil `*http.Response` at line 148, so the caller
observes a nil-pointer panic rather than the `InvalidModeError`. -/
theorem CreateChatCompletion_stream_panics (mf wait : Bool) (maxMs : Int)
    (env : List TransportResult) :
    makeReq true mf env = (.error .invalidMode, 0, env) ∧
    CreateChatCompletion ⟨true, mf⟩ wait maxMs env = ⟨.panic, 0, []⟩ := by
  constructor
  · simp [makeReq]
  · simp [CreateChatCompletion, makeReq]

/-- C2: when request serialization fails (`json.Marshal` error) or the
first transport call fails, `makeReq` returns a nil response with an
error, and `CreateChatCompletion` — its error check missing at
line 148 — panics with a nil-pointer dereference instead of returning
the failure to the caller. -/
theorem CreateChatCompletion_reqFailure_panics (wait : Bool) (maxMs : Int)
    (env rest : List TransportResult) :
    CreateChatCompletion ⟨false, true⟩ wait maxMs env = ⟨.panic, 0, []⟩ ∧
    CreateChatCompletion ⟨false, false⟩ wait maxMs (.err :: rest) = ⟨.panic, 1, []⟩ := by
  constructor <;> simp [CreateChatCompletion, makeReq]

/-- C5: with waiting enabled and six consecutive 429 responses whose
error bodies decode, `CreateChatCompletion` makes exactly 6 transport
requests (1 initial + 5 retries) — a 7th attempt is never issued, any
trailing responses `rest` being unused — sleeps 5 times, and terminates
with the budget-exhausted error carrying the last status code (429) and
the last body. -/
theorem CreateChatCompletion_budget_exhausted
    (maxMs : Int) (h1 h2 h3 h4 h5 h6 : List Char) (b1 b2 b3 b4 b5 b6 : Body)
    (rest : List TransportResult)
    (d1 : b1.errDecodeOk = true) (d2 : b2.errDecodeOk = true)
    (d3 : b3.errDecodeOk = true) (d4 : b4.errDecodeOk = true)
    (d5 : b5.errDecodeOk = true) :
    CreateChatCompletion ⟨false, false⟩ true maxMs
        (.ok 429 h1 b1 :: .ok 429 h2 b2 :: .ok 429 h3 b3 :: .ok 429 h4 b4 ::
         .ok 429 h5 b5 :: .ok 429 h6 b6 :: rest) =
      ⟨.error (.budgetExhausted 6 5 429 b6), 6,
       [clampMs maxMs h1, clampMs maxMs h2, clampMs maxMs h3, clampMs maxMs h4,
        clampMs maxMs h5]⟩ := by
  rw [CreateChatCompletion_cons_ok true maxMs 429 h1 b1 _ (by norm_num)]
  rw [show (7 : Nat) = 6 + 1 from rfl,
      ccLoop_wait_step maxMs 6 0 h1 b1 429 h2 b2 _ (by norm_num) d1]
  rw [show (6 : Nat) = 5 + 1 from rfl,
      ccLoop_wait_step maxMs 5 1 h2 b2 429 h3 b3 _ (by norm_num) d2]
  rw [show (5 : Nat) = 4 + 1 from rfl,
      ccLoop_wait_step maxMs 4 2 h3 b3 429 h4 b4 _ (by norm_num) d3]
  rw [show (4 : Nat) = 3 + 1 from rfl,
      ccLoop_wait_step maxMs 3 3 h4 b4 429 h5 b5 _ (by norm_num) d4]
  rw [show (3 : Nat) = 2 + 1 from rfl,
      ccLoop_wait_step maxMs 2 4 h5 b5 429 h6 b6 _ (by norm_num) d5]
  rw [show (2 : Nat) = 1 + 1 from rfl,
      ccLoop_budget true maxMs false false 1 h6 b6 rest]
  simp

/-- C5 witness: six 429 responses with `retry-after: 1` and a 5000 ms
ceiling — six transport calls, five 1000 ms sleeps, budget-exhausted
error. -/
theorem CreateChatCompletion_budget_exhausted_witness :
    CreateChatCompletion ⟨false, false⟩ true 5000
        (.ok 429 "1".data ⟨true, none⟩ :: .ok 429 "1".data ⟨true, none⟩ ::
         .ok 429 "1".data ⟨true, none⟩ :: .ok 429 "1".data ⟨true, none⟩ ::
         .ok 429 "1".data ⟨true, none⟩ :: .ok 429 "1".data ⟨true, none⟩ :: []) =
      ⟨.error (.budgetExhausted 6 5 429 ⟨true, none⟩), 6,
       [1000, 1000, 1000, 1000, 1000]⟩ := by
  rw [CreateChatCompletion_budget_exhausted 5000 "1".data "1".data "1".data "1".data
      "1".data "1".data ⟨true, none⟩ ⟨true, none⟩ ⟨true, none⟩ ⟨true, none⟩ ⟨true, none⟩
      ⟨true, none⟩ [] rfl rfl rfl rfl rfl]
  decide

/-- C6: first three responses 429 with `retry-after: 1` (decodable error
bodies), fourth 200 with a decodable payload, waiting enabled, ceiling
5000 ms: exactly 3 sleeps of min(1000, 5000) = 1000 ms each, 4 transport
calls, and the decoded payload of the 4th response is returned. -/
theorem CreateChatCompletion_three_429_then_200 (b1 b2 b3 b4 : Body) (p : Nat)
    (h4 : List Char) (rest : List TransportResult)
    (d1 : b1.errDecodeOk = true) (d2 : b2.errDecodeOk = true)
    (d3 : b3.errDecodeOk = true) (hp : b4.chatDecode = some p) :
    CreateChatCompletion ⟨false, false⟩ true 5000
        (.ok 429 "1".data b1 :: .ok 429 "1".data b2 :: .ok 429 "1".data b3 ::
         .ok 200 h4 b4 :: rest) =
      ⟨.ok p, 4, [1000, 1000, 1000]⟩ := by
  have hc : clampMs 5000 "1".data = 1000 := by decide
  rw [CreateChatCompletion_cons_ok true 5000 429 "1".data b1 _ (by norm_num)]
  rw [show (7 : Nat) = 6 + 1 from rfl,
      ccLoop_wait_step 5000 6 0 "1".data b1 429 "1".data b2 _ (by norm_num) d1]
  rw [show (6 : Nat) = 5 + 1 from rfl,
      ccLoop_wait_step 5000 5 1 "1".data b2 429 "1".data b3 _ (by norm_num) d2]
  rw [show (5 : Nat) = 4 + 1 from rfl,
      ccLoop_wait_step 5000 4 2 "1".data b3 200 h4 b4 _ (by norm_num) d3]
  rw [show (4 : Nat) = 3 + 1 from rfl,
      ccLoop_non429 true 5000 false false 3 3 200 h4 b4 rest (by norm_num)]
  simp [finishDecode, hp, hc]

/-- C6 witness: concrete payload 42 on the 4th response. -/
theorem CreateChatCompletion_three_429_then_200_witness :
    CreateChatCompletion ⟨false, false⟩ true 5000
        (.ok 429 "1".data ⟨true, none⟩ :: .ok 429 "1".data ⟨true, none⟩ ::
         .ok 429 "1".data ⟨true, none⟩ :: .ok 200 [] ⟨true, some 42⟩ :: []) =
      ⟨.ok 42, 4, [1000, 1000, 1000]⟩ :=
  CreateChatCompletion_three_429_then_200 ⟨true, none⟩ ⟨true, none⟩ ⟨true, none⟩
    ⟨true, some 42⟩ 42 [] [] rfl rfl rfl rfl

/-- C7 counterexample: a single 429 response with waiting disabled.  The
body would decode as a chat payload (`finishDecode` gives `.ok 9`), but
`CreateChatCompletion` never falls through to that decode: the loop
spins (no sleep, no further request, the response unchanged) until the
retry budget trips, and the caller receives the budget-exhausted ERROR,
not the 429 body. -/
theorem CreateChatCompletion_nowait_cex :
    CreateChatCompletion ⟨false, false⟩ false 5000 [.ok 429 "1".data ⟨true, some 9⟩] =
        ⟨.error (.budgetExhausted 6 5 429 ⟨true, some 9⟩), 1, []⟩ ∧
    finishDecode ⟨true, some 9⟩ = .ok 9 := by
  exact ⟨by decide, by decide⟩

/-- C7 (amended): with waiting disabled and a 429 response whose error
body decodes and whose `retry-after` header parses, the controller
performs zero sleeps and issues no further request, but it does NOT
return the 429 body: the loop re-tests the unchanged response until the
retry budget is exhausted and returns the budget-exhausted error
carrying the status and body. -/
theorem CreateChatCompletion_nowait_behavior (maxMs : Int) (h : List Char) (b : Body)
    (rest : List TransportResult) (hb : b.errDecodeOk = true)
    (ha : (goAtoi h).2 = false) :
    CreateChatCompletion ⟨false, false⟩ false maxMs (.ok 429 h b :: rest) =
      ⟨.error (.budgetExhausted 6 5 429 b), 1, []⟩ := by
  rw [CreateChatCompletion_cons_ok false maxMs 429 h b _ (by norm_num)]
  rw [show (7 : Nat) = 6 + 1 from rfl,
      ccLoop_nowait_step maxMs 6 0 h b rest (by norm_num) hb ha]
  rw [show (6 : Nat) = 5 + 1 from rfl,
      ccLoop_nowait_step maxMs 5 1 h b rest (by norm_num) hb ha]
  rw [show (5 : Nat) = 4 + 1 from rfl,
      ccLoop_nowait_step maxMs 4 2 h b rest (by norm_num) hb ha]
  rw [show (4 : Nat) = 3 + 1 from rfl,
      ccLoop_nowait_step maxMs 3 3 h b rest (by norm_num) hb ha]
  rw [show (3 : Nat) = 2 + 1 from rfl,
      ccLoop_nowait_step maxMs 2 4 h b rest (by norm_num) hb ha]
  rw [show (2 : Nat) = 1 + 1 from rfl,
      ccLoop_budget false maxMs false false 1 h b rest]
  simp

/-- C7 witness: waiting disabled, one 429 with `retry-after: 1`. -/
theorem CreateChatCompletion_nowait_behavior_witness :
    CreateChatCompletion ⟨false, false⟩ false 9000 [.ok 429 "1".data ⟨true, none⟩] =
      ⟨.error (.budgetExhausted 6 5 429 ⟨true, none⟩), 1, []⟩ := by
  rw [CreateChatCompletion_nowait_behavior 9000 "1".data ⟨true, none⟩ [] rfl (by decide)]

/-- C9: a 429 response whose body does NOT decode as the error envelope
is terminal: `CreateChatCompletion` returns the line-159 error
immediately, with no sleep and no further request, whatever the waiting
configuration. -/
theorem CreateChatCompletion_badErrorBody_terminal (wait : Bool) (maxMs : Int)
    (h : List Char) (b : Body) (rest : List TransportResult)
    (hb : b.errDecodeOk = false) :
    CreateChatCompletion ⟨false, false⟩ wait maxMs (.ok 429 h b :: rest) =
      ⟨.error (.errBodyUnmarshal 429 b), 1, []⟩ := by
  rw [CreateChatCompletion_cons_ok wait maxMs 429 h b _ (by norm_num)]
  rw [show (7 : Nat) = 6 + 1 from rfl,
      ccLoop_badbody wait maxMs false false 6 0 h b rest (by norm_num) hb]
  simp

/-- C9 witness: an undecodable error body on a 429 with waiting
enabled. -/
theorem CreateChatCompletion_badErrorBody_terminal_witness :
    CreateChatCompletion ⟨false, false⟩ true 5000 [.ok 429 "1".data ⟨false, none⟩] =
      ⟨.error (.errBodyUnmarshal 429 ⟨false, none⟩), 1, []⟩ := by
  rw [CreateChatCompletion_badErrorBody_terminal true 5000 "1".data ⟨false, none⟩ [] rfl]

/-- C8 counterexample: `retry-after: 18446744073709552` (fits `int64`).
The claimed sleep is min(18446744073709552·1000, 5000) = 5000 ms, but
`retrys * 1000` overflows Go's 64-bit `int` and wraps to 384, which is
below the 5000 ms ceiling, so the controller sleeps 384 ms — not the
claimed minimum. -/
theorem CreateChatCompletion_sleep_overflow_cex :
    CreateChatCompletion ⟨false, false⟩ true 5000
        [.ok 429 "18446744073709552".data ⟨true, none⟩, .ok 200 [] ⟨true, some 1⟩] =
        ⟨.ok 1, 2, [384]⟩ ∧
    ¬ (384 : Int) = min (18446744073709552 * 1000) 5000 := by
  constructor
  · decide
  · decide

/-- C8 (amended): on a 429 with waiting enabled (decodable error body,
header parsing to the integer S), the duration passed to `time.Sleep`
is min(wrap64(S·1000), max_wait_on_ratelimit_in_ms), where wrap64 is
64-bit two's-complement wrapping; whenever S ≥ 0 and S·1000 does not
overflow `int64`, this equals the claimed min(S·1000, max). -/
theorem CreateChatCompletion_sleep_clamp (maxMs S : Int) (h : List Char) (b : Body)
    (rest : List TransportResult) (hb : b.errDecodeOk = true)
    (ha : goAtoi h = (S, false)) :
    (CreateChatCompletion ⟨false, false⟩ true maxMs (.ok 429 h b :: rest)).sleeps.head? =
        some (min (wrap64 (S * 1000)) maxMs) ∧
    (0 ≤ S → S * 1000 < 9223372036854775808 →
      (CreateChatCompletion ⟨false, false⟩ true maxMs (.ok 429 h b :: rest)).sleeps.head? =
        some (min (S * 1000) maxMs)) := by
  have hmain : (CreateChatCompletion ⟨false, false⟩ true maxMs
      (.ok 429 h b :: rest)).sleeps.head? = some (clampMs maxMs h) := by
    rw [CreateChatCompletion_cons_ok true maxMs 429 h b _ (by norm_num)]
    rw [show (7 : Nat) = 6 + 1 from rfl]
    exact ccLoop_first_sleep maxMs 6 0 h b rest (by norm_num) hb
  have hclamp : clampMs maxMs h = min (wrap64 (S * 1000)) maxMs := by
    rw [clampMs_eq_min, ha]
    rfl
  constructor
  · rw [hmain, hclamp]
  · intro hS hov
    rw [hmain, hclamp, wrap64_eq_self (mul_nonneg hS (by norm_num)) hov]

/-- C8 witness: `retry-after: 1` with a 5000 ms ceiling sleeps
min(1000, 5000) = 1000 ms. -/
theorem CreateChatCompletion_sleep_clamp_witness :
    (CreateChatCompletion ⟨false, false⟩ true 5000
        [.ok 429 "1".data ⟨true, none⟩, .ok 200 [] ⟨true, some 3⟩]).sleeps.head? =
      some 1000 := by
  rw [(CreateChatCompletion_sleep_clamp 5000 1 "1".data ⟨true, none⟩
      [.ok 200 [] ⟨true, some 3⟩] rfl (by decide)).2 (by norm_num) (by norm_num)]
  norm_num
